import Mathlib

/-!
# Verification of the sheepenz_news publication pipeline

A shallow embedding, in Lean 4, of the core logic of the `sheepenz_news`
repository (a Python batch job that generates news articles, caches them as
JSON, resolves images, and publishes to a Strapi CMS), together with theorems
settling the specification's claims about it.

Embedding conventions:
* Python strings are `String` / `List Char`; ASCII-level behaviour is modelled
  exactly.  `unicodedata.normalize('NFKD', ·)` is modelled as the identity,
  which is exact on strings whose characters have no canonical or
  compatibility decomposition (all of ASCII and the CJK unified ideographs —
  the only characters the theorems below evaluate it on).
* `Optional[str]` fields are `Option String`; Python truthiness of strings
  (`""` and `None` both falsy) is modelled explicitly wherever the source
  relies on it (`x or y`, `if not x:`).
* Network calls are oracles: functions from the request data to the response,
  carried in an environment structure.  Exceptions the source catches locally
  are folded into `Option`/outcome types; exceptions it lets escape are
  `Except`.
* File-system state (cache file, image folder) is part of the environment;
  mutations performed by a run are returned explicitly in a result structure.
-/

namespace SheepenzNews

/-! ## Slug and format utilities (`src/utils/formatters.py`) -/

/-- Characters matched by Python's `re` pattern `\s` within the ASCII range
(the only range reaching the whitespace substitution in `slugify`, because the
preceding `encode('ascii','ignore')` has discarded everything else): the space
(32), `\t\n\v\f\r` (9-13) and the separator controls 28-31. -/
def isPyWs (c : Char) : Bool :=
  c.toNat = 32 || (9 ≤ c.toNat && c.toNat ≤ 13) || (28 ≤ c.toNat && c.toNat ≤ 31)

/-- Characters matched by Python's `\w` within the ASCII range:
lowercase letters (97-122), uppercase letters (65-90), digits (48-57) and the
underscore (95). -/
def isPyWord (c : Char) : Bool :=
  (97 ≤ c.toNat && c.toNat ≤ 122) || (65 ≤ c.toNat && c.toNat ≤ 90) ||
  (48 ≤ c.toNat && c.toNat ≤ 57) || c.toNat = 95

/-- ASCII lowercasing, the effect of `str.lower()` on the post-encode
(ASCII-only) string in `slugify`. -/
def asciiLower (c : Char) : Char :=
  if 65 ≤ c.toNat && c.toNat ≤ 90 then Char.ofNat (c.toNat + 32) else c

/-- Model of `unicodedata.normalize('NFKD', text)`.  NFKD is the identity on every
character with no canonical or compatibility decomposition — in particular on
all of ASCII and on CJK unified ideographs; this embedding covers exactly
those strings. -/
def normalizeNFKD (s : List Char) : List Char := s

/-- Model of `text.encode('ascii', 'ignore').decode('ascii')`: drop every non-ASCII
character. -/
def encodeAsciiIgnore (s : List Char) : List Char :=
  s.filter (fun c => c.toNat < 128)

/-- Model of `re.sub(r'[\s]+', '-', text)`: replace each maximal run of whitespace by a
single hyphen. -/
def subWsRuns : List Char → List Char
  | [] => []
  | [c] => if isPyWs c then ['-'] else [c]
  | a :: b :: rest =>
    if isPyWs a && isPyWs b then subWsRuns (b :: rest)
    else (if isPyWs a then '-' else a) :: subWsRuns (b :: rest)

/-- Model of `re.sub(r'[^\w\-]', '', text)`: keep only word characters and hyphens. -/
def removeNonWord (s : List Char) : List Char :=
  s.filter (fun c => isPyWord c || c = '-')

/-- Model of `re.sub(r'[-]+', '-', text)`: collapse each run of hyphens to one. -/
def collapseHyphens : List Char → List Char
  | [] => []
  | [c] => [c]
  | a :: b :: rest =>
    if a = '-' && b = '-' then collapseHyphens (b :: rest)
    else a :: collapseHyphens (b :: rest)

/-- Model of `text.strip('-')`: remove leading and trailing hyphens. -/
def stripHyphens (s : List Char) : List Char :=
  ((s.dropWhile (· = '-')).reverse.dropWhile (· = '-')).reverse

/-- Function `slugify` from `src/utils/formatters.py`, character-list level: normalize,
drop non-ASCII, lowercase, whitespace runs to hyphens, drop the remaining
non-word non-hyphen characters, collapse hyphen runs, strip edge hyphens. -/
def slugifyL (s : List Char) : List Char :=
  stripHyphens (collapseHyphens (removeNonWord (subWsRuns
    ((encodeAsciiIgnore (normalizeNFKD s)).map asciiLower))))

/-- Function `slugify` on whole strings. -/
def slugify (s : String) : String :=
  ⟨slugifyL s.data⟩

/-- Model of `sanitize_filename`: every non-alphanumeric character becomes an
underscore (ASCII-exact; the titles the theorems evaluate it on are ASCII). -/
def sanitize_filename (s : String) : String :=
  ⟨s.data.map (fun c => if c.isAlphanum then c else '_')⟩

/-! ## Python string truthiness

Several call sites rely on `None` and `""` both being falsy (`x or y`,
`if not x:`); these helpers model that exactly. -/

/-- Truthiness of an optional Python string: `None` and `""` are falsy. -/
def pyTruthy : Option String → Bool
  | none => false
  | some s => !(s == "")

/-- Model of Python's `a or b` on optional strings. -/
def pyOr (a b : Option String) : Option String :=
  if pyTruthy a then a else b

/-! ## Article Record (`src/models/news_item.py`) -/

/-- Article Record: the `NewsItem` dataclass. -/
structure NewsItem where
  title : String
  summary : String
  source : String
  url : Option String := none
  published_date : Option String := none
  category : Option String := none
  image_url : Option String := none
  local_image_path : Option String := none
  slug : Option String := none
  deriving DecidableEq, Repr

/-- Persisted form of an Article Record: exactly the keys that
`NewsItem.to_dict` writes (`local_image_path` is absent by construction). -/
structure ItemDict where
  title : String
  summary : String
  source : String
  url : Option String := none
  published_date : Option String := none
  category : Option String := none
  image_url : Option String := none
  slug : Option String := none
  deriving DecidableEq, Repr

/-- Method `NewsItem.to_dict`: the dictionary serialized into the cache file. -/
def NewsItem.to_dict (it : NewsItem) : ItemDict :=
  { title := it.title, summary := it.summary, source := it.source,
    url := it.url, published_date := it.published_date, category := it.category,
    image_url := it.image_url, slug := it.slug }

/-! ## Cache persistence (`src/services/news_manager.py`) -/

/-- Contents of the cache file as seen by a run: `none` if the file does not
exist, `some (.error ())` if it exists but `json.load` (or record extraction)
fails, `some (.ok ds)` if it parses into a list of record dictionaries. -/
abbrev CacheFile := Option (Except Unit (List ItemDict))

/-- Per-record body of `NewsManager.load_news_from_json`: rebuild a `NewsItem`
from a persisted dictionary, with `local_image_path` never restored and the
slug recomputed from the title when absent or empty (`if not news_item.slug`). -/
def loadItem (d : ItemDict) : NewsItem :=
  let it : NewsItem :=
    { title := d.title, summary := d.summary, source := d.source,
      url := d.url, published_date := d.published_date, category := d.category,
      image_url := d.image_url, local_image_path := none, slug := d.slug }
  if pyTruthy it.slug then it else { it with slug := some (slugify it.title) }

/-- Method `NewsManager.load_news_from_json`: a missing file and a file that
fails to parse both yield the empty list; otherwise each dictionary is turned
into a record by `loadItem`. -/
def load_news_from_json : CacheFile → List NewsItem
  | none => []
  | some (.error _) => []
  | some (.ok ds) => ds.map loadItem

/-- Method `NewsManager.save_news_to_json`: the list of dictionaries written
to the cache file (the file is opened with mode `w`, i.e. overwritten). -/
def save_news_to_json (items : List NewsItem) : List ItemDict :=
  items.map NewsItem.to_dict

/-! ## Rich-text blocks and the CMS payload
(`src/utils/formatters.py`, `src/services/strapi_service.py`) -/

/-- A JSON object appearing in the `blocks` array of a record-create payload:
either the paragraph shape produced by `format_content_as_blocks`, or the
`shared.rich-text` component shape built inline in `upload_news_items`. -/
inductive Blk where
  | paragraph (text : String)
  | sharedRichText (body : String)
  deriving DecidableEq, Repr

/-- Model of `text.split('\n\n')`: split at each leftmost, non-overlapping
occurrence of two consecutive newlines. -/
def splitOnDoubleNl : List Char → List (List Char)
  | [] => [[]]
  | '\n' :: '\n' :: rest => [] :: splitOnDoubleNl rest
  | c :: rest =>
    match splitOnDoubleNl rest with
    | [] => [[c]]
    | p :: ps => (c :: p) :: ps

/-- Model of `str.strip()` (ASCII range): drop leading and trailing
whitespace. -/
def pyStrip (l : List Char) : List Char :=
  ((l.dropWhile isPyWs).reverse.dropWhile isPyWs).reverse

/-- Function `format_content_as_blocks`: split on blank lines and wrap each
non-blank paragraph, stripped, as
`\x7btype:"paragraph", children:[\x7btype:"text", text\x7d]\x7d`. -/
def format_content_as_blocks (text : String) : List Blk :=
  (splitOnDoubleNl text.data).filterMap (fun p =>
    let t := pyStrip p
    if t.isEmpty then none else some (Blk.paragraph ⟨t⟩))

/-- The `data` object of a record-create request. -/
structure ArticleData where
  title : String
  description : String
  publishedAt : String
  slug : Option String
  blocks : List Blk
  cover : Option Nat
  deriving DecidableEq, Repr

/-- The `article_data` payload built per record inside
`StrapiService.upload_news_items` (lines 87-99): description synthesized from
source and truthy category, published date falling back to today, the
`shared.rich-text` component as the only block, and `cover` only for a truthy
(nonzero) image id. -/
def articlePayload (today : String) (it : NewsItem) (imageId : Option Nat) :
    ArticleData :=
  { title := it.title
    description := "News from " ++ it.source ++
      (match it.category with
        | some c => if c = "" then "" else " - " ++ c
        | none => "")
    publishedAt :=
      (match it.published_date with
        | some d => if d = "" then today else d
        | none => today)
    slug := it.slug
    blocks := [Blk.sharedRichText ("<p>" ++ it.summary ++ "</p>")]
    cover :=
      (match imageId with
        | some n => if n = 0 then none else some n
        | none => none) }

/-! ## CMS Publisher (`src/services/strapi_service.py`) -/

/-- Outcome of one record-create POST: an exception anywhere in the request
(transport failure, `raise_for_status`, malformed JSON), or a parsed response
from which an article id could (or could not) be extracted. -/
inductive CreateOutcome where
  | httpError
  | ok (articleId : Option Nat)
  deriving DecidableEq, Repr

/-- Environment for one batch upload: per-record index, the asset id obtained
by the image-resolution step (`none` when no image was uploaded) and the
outcome of the record-create call. -/
structure UploadEnv where
  today : String
  imageId : Nat → Option Nat
  createResp : Nat → CreateOutcome

/-- Loop body of `StrapiService.upload_news_items`: every record is attempted
in order; the per-record `try` block means an exception for one record only
skips that record; an extracted id that is falsy (absent or `0`) is dropped
with a warning (`if not article_id: continue`).  Returns the created ids and
the payloads submitted. -/
def uploadGo (env : UploadEnv) : Nat → List NewsItem → List Nat × List ArticleData
  | _, [] => ([], [])
  | i, it :: rest =>
    let payload := articlePayload env.today it (env.imageId i)
    let (ids, payloads) := uploadGo env (i + 1) rest
    match env.createResp i with
    | .httpError => (ids, payload :: payloads)
    | .ok none => (ids, payload :: payloads)
    | .ok (some aid) =>
      (if aid = 0 then ids else aid :: ids, payload :: payloads)

/-- State of a `StrapiService` after construction: resolved url and token, and
whether the auth headers were built (both credentials truthy). -/
structure StrapiState where
  api_url : Option String
  api_token : Option String
  hasHeaders : Bool
  deriving DecidableEq, Repr

/-- Constructor `StrapiService.__init__`: missing credentials produce a
printed warning and `headers = None`, but never an exception — the result is
always `.ok`. -/
def StrapiService.init (apiUrlArg apiTokenArg cfgUrl cfgToken : Option String) :
    Except String StrapiState :=
  let url := pyOr apiUrlArg cfgUrl
  let tok := pyOr apiTokenArg cfgToken
  .ok { api_url := url, api_token := tok,
        hasHeaders := pyTruthy url && pyTruthy tok }

/-- Method `StrapiService.upload_news_items`: raises `ValueError` when the url
or the headers are missing, otherwise runs the per-record loop. -/
def upload_news_items (st : StrapiState) (env : UploadEnv)
    (items : List NewsItem) : Except String (List Nat × List ArticleData) :=
  if pyTruthy st.api_url && st.hasHeaders then .ok (uploadGo env 0 items)
  else .error "Strapi URL and token are required for uploading to Strapi"

/-! ## Credential handling of the other services
(`src/services/openai_service.py`, `src/services/unsplash_service.py`) -/

/-- Constructor `OpenAIService.__init__`: resolves the key as
`api_key or config.OPENAI_API_KEY` and raises `ValueError` when the result is
falsy. -/
def OpenAIService.init (apiKeyArg cfgKey : Option String) :
    Except String (Option String) :=
  let key := pyOr apiKeyArg cfgKey
  if pyTruthy key then .ok key
  else .error "OpenAI API key is required. Either pass it as an argument or set the OPENAI_API_KEY environment variable."

/-- State of an `UnsplashService` after construction. -/
structure UnsplashState where
  hasHeaders : Bool
  deriving DecidableEq, Repr

/-- Constructor `UnsplashService.__init__`: a missing key produces a printed
warning and `headers = None`, never an exception. -/
def UnsplashService.init (apiKeyArg cfgKey : Option String) :
    Except String UnsplashState :=
  .ok { hasHeaders := pyTruthy (pyOr apiKeyArg cfgKey) }

/-- Method `UnsplashService.search_image`: with no headers it returns `None`
without error; otherwise the oracle answers for the query. -/
def search_image (st : UnsplashState) (oracle : String → Option String)
    (query : String) : Option String :=
  if st.hasHeaders then oracle query else none

/-! ## Publication Pipeline (`src/services/news_manager.py`) -/

/-- One raw item of the Content Generator's parsed JSON response:
`title`, `summary`, `source` are read with mandatory indexing, the other two
with `.get`. -/
structure RawItem where
  title : String
  summary : String
  source : String
  published_date : Option String := none
  category : Option String := none
  deriving DecidableEq, Repr

/-- Environment of one `process_news` run: the current date, the cache file
for today's category, the parsed Content-Generator response, and oracles for
the image services, the image-folder scan and image downloads. -/
structure PipelineEnv where
  today : String
  cache : CacheFile
  genData : List RawItem
  unsplash : String → Option String
  dalle : String → Option String
  localImage : String → Option String
  download : String → Bool

/-- Per-item body of `NewsManager.generate_news_items`: build the record,
derive the slug from the title, query Unsplash with title plus (truthy)
category, fall back to DALL-E with the synthesized prompt, and set
`image_url` only when the result is truthy. -/
def mkGeneratedItem (env : PipelineEnv) (category : String) (r : RawItem) :
    NewsItem :=
  let it : NewsItem :=
    { title := r.title, summary := r.summary, source := r.source,
      url := none, published_date := r.published_date, category := r.category,
      image_url := none, local_image_path := none,
      slug := some (slugify r.title) }
  let query := it.title ++ " " ++
    (match it.category with
      | some c => if c = "" then category else c
      | none => category)
  let fromSearch := env.unsplash query
  let prompt := "Generate a realistic news image for headline: '" ++
    it.title ++ "'" ++
    (match it.category with
      | some c => if c = "" then "" else " in the category of " ++ c
      | none => "")
  let image_url := if pyTruthy fromSearch then fromSearch else env.dalle prompt
  if pyTruthy image_url then { it with image_url := image_url } else it

/-- Method `NewsManager.generate_news_items`: wrap every raw item of the
generator response. -/
def generate_news_items (env : PipelineEnv) (category : String) :
    List NewsItem :=
  env.genData.map (mkGeneratedItem env category)

/-- Method `NewsManager.find_local_images`: for each record, attach the first
file in the image folder matching `*_\x7bsanitized-title-prefix\x7d.jpg`, if any.
The folder scan (including the missing-folder case) is the `localImage`
oracle, keyed by the title that determines the pattern. -/
def find_local_images (env : PipelineEnv) (items : List NewsItem) :
    List NewsItem :=
  items.map (fun it =>
    match env.localImage it.title with
    | some p => { it with local_image_path := some p }
    | none => it)

/-- Path `save_images_locally` writes for the record at 0-based index `i`. -/
def imgFileName (folder : String) (i : Nat) (title : String) : String :=
  folder ++ "/" ++ toString (i + 1) ++ "_" ++
    ⟨(sanitize_filename title).data.take 50⟩ ++ ".jpg"

/-- Loop of `save_images_locally` (`src/utils/image_utils.py`): a record with
a falsy `image_url` is skipped via `continue`; otherwise a download is
attempted (second component collects those indices) and on success the local
path is stored on the record. -/
def saveImagesGo (env : PipelineEnv) (folder : String) :
    Nat → List NewsItem → List NewsItem × List Nat
  | _, [] => ([], [])
  | i, it :: rest =>
    let (res, att) := saveImagesGo env folder (i + 1) rest
    match it.image_url with
    | none => (it :: res, att)
    | some u =>
      if u = "" then (it :: res, att)
      else if env.download u then
        ({ it with local_image_path := some (imgFileName folder i it.title) }
          :: res, i :: att)
      else (it :: res, i :: att)

/-- Function `save_images_locally`: the updated records and the indices for
which a download (materialization) was attempted. -/
def save_images_locally (env : PipelineEnv) (folder : String)
    (items : List NewsItem) : List NewsItem × List Nat :=
  saveImagesGo env folder 0 items

/-- Observable outcome of one `process_news` run: the returned records,
whether (and with which arguments) the Content Generator was invoked, the
cache contents written (if any), the download attempts of the
materialization step, and whether the CMS upload was invoked. -/
structure PipelineResult where
  items : List NewsItem
  genInvoked : Option (String × Nat)
  savedCache : Option (List ItemDict)
  downloadAttempts : List Nat
  uploadInvoked : Bool
  deriving DecidableEq, Repr

/-- Method `NewsManager.process_news` (lines 156-207): cache lookup guarded
by `force_fetch`, local-image backfill for a non-empty cache load, fresh
generation when the list is still empty or `force_fetch` is set (overwriting
the cache when `save_json` is set), then optional image download and optional
upload. -/
def process_news (env : PipelineEnv) (category : String) (count : Nat)
    (force_fetch save_json download_images upload_to_strapi : Bool)
    (image_folder : String) : PipelineResult :=
  let loaded : List NewsItem :=
    if !force_fetch && env.cache.isSome then load_news_from_json env.cache
    else []
  let cached : List NewsItem :=
    if loaded.isEmpty then loaded else find_local_images env loaded
  let (items0, genInv, saved) :=
    if cached.isEmpty || force_fetch then
      let fresh := generate_news_items env category
      (fresh, some (category, count),
        if save_json then some (save_news_to_json fresh) else none)
    else (cached, none, none)
  let (items1, att) :=
    if download_images then save_images_locally env image_folder items0
    else (items0, [])
  { items := items1, genInvoked := genInv, savedCache := saved,
    downloadAttempts := att, uploadInvoked := upload_to_strapi }

/-! ## Auxiliary predicates and concrete instances used by the theorems -/

/-- Character class of every `slugify` output character: lowercase letter
(97-122), digit (48-57), underscore (95) or hyphen (45). -/
def isSlugChar (c : Char) : Bool :=
  (97 ≤ c.toNat && c.toNat ≤ 122) || (48 ≤ c.toNat && c.toNat ≤ 57) ||
  c.toNat = 95 || c.toNat = 45

/-- Boolean check: no two adjacent hyphens anywhere in the list. -/
def noDoubleHyphen : List Char → Bool
  | [] => true
  | [_] => true
  | a :: b :: rest => !(a = '-' && b = '-') && noDoubleHyphen (b :: rest)

/-- Boolean check: no hyphen at either end of the list. -/
def noEdgeHyphen (l : List Char) : Bool :=
  !(l.head? == some '-') && !(l.getLast? == some '-')

/-- Indices (from base `i`) of the records whose `image_url` is truthy — the
records for which the materialization loop attempts a download. -/
def urlIdxs : Nat → List NewsItem → List Nat
  | _, [] => []
  | i, it :: rest =>
    if pyTruthy it.image_url then i :: urlIdxs (i + 1) rest
    else urlIdxs (i + 1) rest

/-- Article id the upload loop keeps for one record-create outcome: present
exactly for a success whose extracted id is truthy (present and nonzero). -/
def extractId : CreateOutcome → Option Nat
  | .ok (some aid) => if aid = 0 then none else some aid
  | .ok none => none
  | .httpError => none

/-- An inert pipeline environment for concrete evaluations: no cache, no
generator output, all oracles empty. -/
def nullPipelineEnv : PipelineEnv :=
  { today := "20260101", cache := none, genData := [],
    unsplash := fun _ => none, dalle := fun _ => none,
    localImage := fun _ => none, download := fun _ => false }

/-- An inert upload environment for concrete evaluations. -/
def nullUploadEnv : UploadEnv :=
  { today := "2026-01-01", imageId := fun _ => none,
    createResp := fun _ => .httpError }

/-- A concrete persisted record used to instantiate cache-related claims. -/
def c1CacheDict : ItemDict :=
  { title := "Hello", summary := "S", source := "X", slug := some "hello" }

/-- A pipeline environment whose cache file exists and parses into one
record. -/
def c1Env : PipelineEnv :=
  { nullPipelineEnv with cache := some (.ok [c1CacheDict]) }

/-- A concrete record used to instantiate the payload-shape claim. -/
def c3Item : NewsItem :=
  { title := "T", summary := "S", source := "Y",
    published_date := some "2026-01-01", slug := some "t" }

/-- A concrete record with a present, truthy slug, used to instantiate the
cache round-trip claim. -/
def c7WitnessItem : NewsItem :=
  { title := "Hello World", summary := "S", source := "X",
    slug := some "hello-world" }

/-- A record that already holds a usable local image and also a remote
image URL. -/
def c8Item : NewsItem :=
  { title := "T", summary := "S", source := "Y",
    image_url := some "http://img", local_image_path := some "news_images/1_T.jpg" }

/-- A pipeline environment whose downloads always succeed. -/
def c8Env : PipelineEnv :=
  { nullPipelineEnv with download := fun _ => true }

/-! ## Theorems

First the toolkit of lemmas about the slug transformation chain, then the
settled claims. -/

theorem slugify_example_basic : slugify "Hello World" = "hello-world" := by decide

theorem slugify_example_messy :
    slugify "  --Big   News!!--  " = "big-news" := by decide

theorem char_eq_iff_toNat (a b : Char) : a = b ↔ a.toNat = b.toNat := by
  constructor
  · intro h; rw [h]
  · intro h
    apply Char.eq_of_val_eq
    exact UInt32.toNat.inj h

theorem toNat_ofNat_of_lt (n : Nat) (h : n < 55296) : (Char.ofNat n).toNat = n := by
  unfold Char.ofNat
  split
  · simp [Char.ofNatAux, Char.toNat, UInt32.toNat, BitVec.toNat_ofNatLt]
  · rename_i hv
    exact absurd (Or.inl h) hv

theorem asciiLower_toNat (c : Char) : (asciiLower c).toNat =
    if 65 ≤ c.toNat ∧ c.toNat ≤ 90 then c.toNat + 32 else c.toNat := by
  unfold asciiLower
  by_cases h : 65 ≤ c.toNat ∧ c.toNat ≤ 90
  · rw [if_pos (by simp [h.1, h.2]), if_pos h]
    exact toNat_ofNat_of_lt _ (by omega)
  · rw [if_neg (by simpa [Bool.and_eq_true, decide_eq_true_iff] using h), if_neg h]

theorem asciiLower_not_upper (c : Char) :
    ¬(65 ≤ (asciiLower c).toNat ∧ (asciiLower c).toNat ≤ 90) := by
  have := asciiLower_toNat c
  by_cases h : 65 ≤ c.toNat ∧ c.toNat ≤ 90 <;> simp [h] at this <;> omega

theorem hyphen_toNat : ('-').toNat = 45 := rfl

-- membership through subWsRuns
theorem mem_subWsRuns (c : Char) :
    ∀ l : List Char, c ∈ subWsRuns l → c = '-' ∨ c ∈ l := by
  intro l
  induction l using subWsRuns.induct with
  | case1 => intro h; simp [subWsRuns] at h
  | case2 d hd =>
    intro h
    simp [subWsRuns, hd] at h
    exact Or.inl h
  | case3 d hd =>
    intro h
    simp [subWsRuns, hd] at h
    exact Or.inr (by simp [h])
  | case4 a b rest hab ih =>
    intro h
    rw [subWsRuns, if_pos hab] at h
    rcases ih h with h' | h'
    · exact Or.inl h'
    · exact Or.inr (List.mem_cons_of_mem _ h')
  | case5 a b rest hab ih =>
    intro h
    rw [subWsRuns, if_neg hab] at h
    rcases List.mem_cons.mp h with h' | h'
    · by_cases ha : isPyWs a
      · simp [ha] at h'; exact Or.inl h'
      · simp [ha] at h'; exact Or.inr (by simp [h'])
    · rcases ih h' with h'' | h''
      · exact Or.inl h''
      · exact Or.inr (List.mem_cons_of_mem _ h'')

-- collapseHyphens: membership, head preservation, no double hyphens
theorem mem_collapseHyphens (c : Char) :
    ∀ l : List Char, c ∈ collapseHyphens l → c ∈ l := by
  intro l
  induction l using collapseHyphens.induct with
  | case1 => intro h; simp [collapseHyphens] at h
  | case2 d => intro h; simpa [collapseHyphens] using h
  | case3 a b rest hab ih =>
    intro h
    rw [collapseHyphens, if_pos hab] at h
    exact List.mem_cons_of_mem _ (ih h)
  | case4 a b rest hab ih =>
    intro h
    rw [collapseHyphens, if_neg hab] at h
    rcases List.mem_cons.mp h with h' | h'
    · exact h' ▸ List.mem_cons_self _ _
    · exact List.mem_cons_of_mem _ (ih h')

theorem collapseHyphens_head : ∀ l : List Char,
    (collapseHyphens l).head? = l.head? := by
  intro l
  induction l using collapseHyphens.induct with
  | case1 => rfl
  | case2 d => rfl
  | case3 a b rest hab ih =>
    rw [collapseHyphens, if_pos hab, ih]
    simp only [Bool.and_eq_true, decide_eq_true_eq] at hab
    simp [hab.1, hab.2]
  | case4 a b rest hab ih =>
    rw [collapseHyphens, if_neg hab]
    rfl

theorem noDoubleHyphen_cons (a x : Char) (xs : List Char) :
    noDoubleHyphen (a :: x :: xs) =
      (!(a = '-' && x = '-') && noDoubleHyphen (x :: xs)) := rfl

theorem collapseHyphens_noDouble : ∀ l : List Char,
    noDoubleHyphen (collapseHyphens l) = true := by
  intro l
  induction l using collapseHyphens.induct with
  | case1 => rfl
  | case2 d => rfl
  | case3 a b rest hab ih =>
    rw [collapseHyphens, if_pos hab]
    exact ih
  | case4 a b rest hab ih =>
    rw [collapseHyphens, if_neg hab]
    rcases hcl : collapseHyphens (b :: rest) with _ | ⟨x, xs⟩
    · rfl
    · have hx : x = b := by
        have h2 := collapseHyphens_head (b :: rest)
        rw [hcl] at h2
        exact Option.some_inj.mp h2
      subst hx
      rw [noDoubleHyphen_cons]
      simp only [Bool.and_eq_true, Bool.not_eq_true', Bool.and_eq_false_iff,
        decide_eq_false_iff_not]
      refine ⟨?_, by rw [← hcl]; exact ih⟩
      by_cases ha : a = '-'
      · right
        intro hb
        exact hab (by simp [ha, hb])
      · left; exact ha

-- stripHyphens: sublist, hyphen-free edges
theorem stripHyphens_sublist (l : List Char) :
    List.Sublist (stripHyphens l) l := by
  unfold stripHyphens
  have h1 : List.Sublist ((l.dropWhile (· = '-')).reverse.dropWhile (· = '-'))
      (l.dropWhile (· = '-')).reverse := List.dropWhile_sublist _
  have h2 := h1.reverse
  rw [List.reverse_reverse] at h2
  exact h2.trans (List.dropWhile_sublist _)

theorem head_dropWhile_false (p : Char → Bool) (l : List Char) :
    ∀ a : Char, (l.dropWhile p).head? = some a → p a = false := by
  induction l with
  | nil => intro a h; simp at h
  | cons x xs ih =>
    intro a h
    by_cases hx : p x
    · rw [List.dropWhile_cons_of_pos hx] at h; exact ih a h
    · rw [List.dropWhile_cons_of_neg hx] at h
      simp at h
      rw [← h]
      simpa using hx

theorem stripHyphens_head (l : List Char) :
    (stripHyphens l).head? ≠ some '-' := by
  unfold stripHyphens
  intro h
  rw [List.head?_reverse] at h
  rcases hX : (l.dropWhile (· = '-')).reverse.dropWhile (· = '-') with _ | ⟨x, xs⟩
  · rw [hX] at h; simp at h
  · rw [hX] at h
    have hsufx : ∃ t, t ++ (x :: xs) = (l.dropWhile (· = '-')).reverse := by
      have := List.dropWhile_suffix (l := (l.dropWhile (· = '-')).reverse) (p := (· = '-'))
      rw [hX] at this
      exact this
    rcases hsufx with ⟨t, ht⟩
    have hlast : ((x :: xs) : List Char).getLast? = (l.dropWhile (· = '-')).reverse.getLast? := by
      rw [← ht]
      exact (List.getLast?_append_of_ne_nil t (by simp)).symm
    rw [h] at hlast
    rw [List.getLast?_reverse] at hlast
    have := head_dropWhile_false (· = '-') l '-' hlast.symm
    simp at this

theorem stripHyphens_getLast (l : List Char) :
    (stripHyphens l).getLast? ≠ some '-' := by
  unfold stripHyphens
  intro h
  rw [List.getLast?_reverse] at h
  have := head_dropWhile_false (· = '-') (l.dropWhile (· = '-')).reverse '-' h
  simp at this

-- character class of slugify output
theorem mem_slugifyL_isSlugChar (s : List Char) :
    ∀ c ∈ slugifyL s, isSlugChar c = true := by
  intro c hc
  unfold slugifyL at hc
  have hc1 : c ∈ collapseHyphens (removeNonWord (subWsRuns
      ((encodeAsciiIgnore (normalizeNFKD s)).map asciiLower))) :=
    (stripHyphens_sublist _).mem hc
  have hc2 := mem_collapseHyphens c _ hc1
  rw [removeNonWord, List.mem_filter] at hc2
  obtain ⟨hc3, hword⟩ := hc2
  have hc4 := mem_subWsRuns c _ hc3
  rcases hc4 with hhy | hmem
  · subst hhy
    decide
  · rw [List.mem_map] at hmem
    obtain ⟨d, _, hd⟩ := hmem
    subst hd
    have hupper := asciiLower_not_upper d
    simp only [isPyWord, Bool.or_eq_true, Bool.and_eq_true,
      decide_eq_true_eq, char_eq_iff_toNat, hyphen_toNat] at hword
    simp only [isSlugChar, Bool.or_eq_true, Bool.and_eq_true,
      decide_eq_true_eq]
    omega

-- relating the boolean no-double-hyphen predicate to Chain'
theorem noDouble_iff_chain : ∀ l : List Char,
    noDoubleHyphen l = true ↔ l.Chain' (fun a b => ¬(a = '-' ∧ b = '-')) := by
  intro l
  induction l using noDoubleHyphen.induct with
  | case1 => simp [noDoubleHyphen]
  | case2 c => simp [noDoubleHyphen]
  | case3 a b rest ih =>
    rw [noDoubleHyphen_cons, List.chain'_cons, ← ih]
    simp only [Bool.and_eq_true, Bool.not_eq_true', Bool.and_eq_false_iff,
      decide_eq_false_iff_not]
    constructor
    · rintro ⟨h1, h2⟩
      exact ⟨fun hab => (h1.elim (fun hx => hx hab.1) (fun hx => hx hab.2)), h2⟩
    · rintro ⟨h1, h2⟩
      refine ⟨?_, h2⟩
      by_cases ha : a = '-'
      · exact Or.inr (fun hb => h1 ⟨ha, hb⟩)
      · exact Or.inl ha

theorem stripHyphens_noDouble (l : List Char)
    (h : noDoubleHyphen l = true) :
    noDoubleHyphen (stripHyphens l) = true := by
  rw [noDouble_iff_chain] at h ⊢
  unfold stripHyphens
  have h1 : ((l.dropWhile (· = '-'))).Chain' (fun a b => ¬(a = '-' ∧ b = '-')) :=
    h.suffix (List.dropWhile_suffix _)
  have h2 : ((l.dropWhile (· = '-')).reverse).Chain'
      (fun a b => ¬(a = '-' ∧ b = '-')) := by
    rw [List.chain'_reverse]
    exact h1.imp (fun a b hab (hf : b = '-' ∧ a = '-') => hab ⟨hf.2, hf.1⟩)
  have h3 : (((l.dropWhile (· = '-')).reverse.dropWhile (· = '-'))).Chain'
      (fun a b => ¬(a = '-' ∧ b = '-')) :=
    h2.suffix (List.dropWhile_suffix _)
  exact List.chain'_reverse.mpr
    (h3.imp (fun a b hab (hf : b = '-' ∧ a = '-') => hab ⟨hf.2, hf.1⟩))

-- per-character consequences of the slug character class
theorem slugChar_not_ws (c : Char) (h : isSlugChar c = true) :
    isPyWs c = false := by
  simp only [isSlugChar, Bool.or_eq_true, Bool.and_eq_true,
    decide_eq_true_eq] at h
  simp only [isPyWs, Bool.or_eq_false_iff, Bool.and_eq_false_iff,
    decide_eq_false_iff_not]
  omega

theorem slugChar_not_upper (c : Char) (h : isSlugChar c = true) :
    (65 ≤ c.toNat && c.toNat ≤ 90) = false := by
  simp only [isSlugChar, Bool.or_eq_true, Bool.and_eq_true,
    decide_eq_true_eq] at h
  simp only [Bool.and_eq_false_iff, decide_eq_false_iff_not]
  omega

theorem slugChar_ascii (c : Char) (h : isSlugChar c = true) :
    (c.toNat < 128) := by
  simp only [isSlugChar, Bool.or_eq_true, Bool.and_eq_true,
    decide_eq_true_eq] at h
  omega

theorem slugChar_word_or_hyphen (c : Char) (h : isSlugChar c = true) :
    (isPyWord c || c = '-') = true := by
  simp only [isSlugChar, Bool.or_eq_true, Bool.and_eq_true,
    decide_eq_true_eq] at h
  simp only [isPyWord, Bool.or_eq_true, Bool.and_eq_true, decide_eq_true_eq,
    char_eq_iff_toNat, hyphen_toNat]
  omega

theorem asciiLower_id (c : Char) (h : isSlugChar c = true) :
    asciiLower c = c := by
  simp only [isSlugChar, Bool.or_eq_true, Bool.and_eq_true,
    decide_eq_true_eq] at h
  unfold asciiLower
  rw [if_neg]
  simp only [Bool.and_eq_true, decide_eq_true_eq]
  omega

-- step identity lemmas on slug-class strings
theorem subWsRuns_id : ∀ l : List Char,
    (∀ c ∈ l, isPyWs c = false) → subWsRuns l = l := by
  intro l
  induction l using subWsRuns.induct with
  | case1 => intro _; rfl
  | case2 c hc =>
    intro h
    exact absurd (h c (by simp)) (by simp [hc])
  | case3 c hc =>
    intro h
    simp [subWsRuns, hc]
  | case4 a b rest hab ih =>
    intro h
    rw [Bool.and_eq_true] at hab
    exact absurd (h a (by simp)) (by simp [hab.1])
  | case5 a b rest hab ih =>
    intro h
    rw [subWsRuns, if_neg hab]
    have ha : isPyWs a = false := h a (by simp)
    rw [ha]
    simp only [Bool.false_eq_true, if_false]
    rw [ih (fun c hc => h c (List.mem_cons_of_mem _ hc))]

theorem collapseHyphens_id : ∀ l : List Char,
    noDoubleHyphen l = true → collapseHyphens l = l := by
  intro l
  induction l using collapseHyphens.induct with
  | case1 => intro _; rfl
  | case2 c => intro _; rfl
  | case3 a b rest hab ih =>
    intro h
    simp only [Bool.and_eq_true, decide_eq_true_eq] at hab
    rw [noDoubleHyphen_cons] at h
    simp [hab.1, hab.2] at h
  | case4 a b rest hab ih =>
    intro h
    rw [collapseHyphens, if_neg hab]
    rw [noDoubleHyphen_cons, Bool.and_eq_true] at h
    rw [ih h.2]

theorem dropWhile_hyphen_id (l : List Char) (h : l.head? ≠ some '-') :
    l.dropWhile (· = '-') = l := by
  cases l with
  | nil => rfl
  | cons a as =>
    have ha : a ≠ '-' := fun hx => h (by simp [hx])
    rw [List.dropWhile_cons_of_neg (by simpa using ha)]

theorem stripHyphens_id (l : List Char) (hh : l.head? ≠ some '-')
    (hl : l.getLast? ≠ some '-') : stripHyphens l = l := by
  unfold stripHyphens
  rw [dropWhile_hyphen_id l hh]
  rw [dropWhile_hyphen_id l.reverse (by rw [List.head?_reverse]; exact hl)]
  exact List.reverse_reverse l

-- idempotence at the character-list level
theorem slugifyL_idem (s : List Char) : slugifyL (slugifyL s) = slugifyL s := by
  have hchar := mem_slugifyL_isSlugChar s
  have hfix : ∀ (t : List Char), (∀ c ∈ t, isSlugChar c = true) →
      noDoubleHyphen t = true → t.head? ≠ some '-' → t.getLast? ≠ some '-' →
      slugifyL t = t := by
    intro t hc hnd hh hl
    unfold slugifyL
    rw [show normalizeNFKD t = t from rfl]
    rw [show encodeAsciiIgnore t = t from
      List.filter_eq_self.mpr (fun c hm => by
        simpa using slugChar_ascii c (hc c hm))]
    rw [show t.map asciiLower = t from by
      rw [List.map_congr_left (fun c hm => asciiLower_id c (hc c hm))]
      exact List.map_id t]
    rw [subWsRuns_id t (fun c hm => slugChar_not_ws c (hc c hm))]
    rw [show removeNonWord t = t from
      List.filter_eq_self.mpr (fun c hm => slugChar_word_or_hyphen c (hc c hm))]
    rw [collapseHyphens_id t hnd]
    exact stripHyphens_id t hh hl
  have hnd : noDoubleHyphen (slugifyL s) = true := by
    unfold slugifyL
    exact stripHyphens_noDouble _ (collapseHyphens_noDouble _)
  exact hfix (slugifyL s) hchar hnd (stripHyphens_head _) (stripHyphens_getLast _)


theorem articlePayload_fields (today : String) (it : NewsItem) (imageId : Option Nat) :
    articlePayload today it imageId =
      { title := it.title
        description := "News from " ++ it.source ++
          (if pyTruthy it.category then " - " ++ it.category.getD "" else "")
        publishedAt :=
          if pyTruthy it.published_date then it.published_date.getD "" else today
        slug := it.slug
        blocks := [Blk.sharedRichText ("<p>" ++ it.summary ++ "</p>")]
        cover := if imageId = some 0 then none else imageId } := by
  obtain ⟨t, sm, src, u, pd, cat, iu, lip, sl⟩ := it
  rcases cat with _ | c <;> rcases pd with _ | d <;> rcases imageId with _ | n <;>
    (simp only [articlePayload, pyTruthy]; split_ifs <;> simp_all)

theorem uploadGo_fst (env : UploadEnv) :
    ∀ (items : List NewsItem) (i : Nat), (uploadGo env i items).1 =
      (List.range items.length).filterMap
        (fun j => extractId (env.createResp (i + j))) := by
  intro items
  induction items with
  | nil => intro i; rfl
  | cons it rest ih =>
    intro i
    rcases h : env.createResp i with _ | aid
    · simp [uploadGo, h, ih, List.range_succ_eq_map, List.filterMap_map,
        extractId, Function.comp_def]
      congr 1
      funext j
      have hj : i + (j + 1) = (i + 1) + j := by omega
      rw [hj]
    · rcases aid with _ | a
      · simp [uploadGo, h, ih, List.range_succ_eq_map, List.filterMap_map,
          extractId, Function.comp_def]
        congr 1
        funext j
        have hj : i + (j + 1) = (i + 1) + j := by omega
        rw [hj]
      · by_cases ha : a = 0 <;>
          simp [uploadGo, h, ih, List.range_succ_eq_map, List.filterMap_map,
            extractId, Function.comp_def, ha] <;>
        · congr 1
          funext j
          have hj : i + (j + 1) = (i + 1) + j := by omega
          rw [hj]

theorem uploadGo_snd (env : UploadEnv) :
    ∀ (items : List NewsItem) (i : Nat), (uploadGo env i items).2 =
      items.mapIdx (fun j it => articlePayload env.today it (env.imageId (i + j))) := by
  intro items
  induction items with
  | nil => intro i; rfl
  | cons it rest ih =>
    intro i
    have htail : (rest.mapIdx fun j it =>
          articlePayload env.today it (env.imageId ((i + 1) + j))) =
        rest.mapIdx fun j it =>
          articlePayload env.today it (env.imageId (i + (j + 1))) := by
      congr 1
      funext j it
      have hj : (i + 1) + j = i + (j + 1) := by omega
      rw [hj]
    rcases h : env.createResp i with _ | aid
    · simp [uploadGo, h, ih, List.mapIdx_cons, htail]
    · rcases aid with _ | a
      · simp [uploadGo, h, ih, List.mapIdx_cons, htail]
      · simp [uploadGo, h, ih, List.mapIdx_cons, htail]

-- materialization loop: attempted indices and skipped records
theorem saveImagesGo_snd (env : PipelineEnv) (folder : String) :
    ∀ (i : Nat) (items : List NewsItem),
      (saveImagesGo env folder i items).2 = urlIdxs i items := by
  intro i items
  induction items generalizing i with
  | nil => rfl
  | cons it rest ih =>
    rcases h : it.image_url with _ | u
    · simp [saveImagesGo, urlIdxs, h, pyTruthy, ih]
    · by_cases hu : u = ""
      · simp [saveImagesGo, urlIdxs, h, hu, pyTruthy, ih]
      · by_cases hd : env.download u <;>
          simp [saveImagesGo, urlIdxs, h, hu, pyTruthy, hd, ih]

theorem saveImagesGo_skip (env : PipelineEnv) (folder : String) :
    ∀ (i : Nat) (items : List NewsItem),
      List.Forall₂ (fun it out => pyTruthy it.image_url = false → out = it)
        items (saveImagesGo env folder i items).1 := by
  intro i items
  induction items generalizing i with
  | nil => exact List.Forall₂.nil
  | cons it rest ih =>
    have hrec := ih (i + 1)
    rcases h : it.image_url with _ | u
    · simp only [saveImagesGo, h]
      exact List.Forall₂.cons (fun _ => rfl) hrec
    · by_cases hu : u = ""
      · simp only [saveImagesGo, h, hu, if_pos rfl]
        exact List.Forall₂.cons (fun _ => rfl) hrec
      · by_cases hd : env.download u
        · simp only [saveImagesGo, h, if_neg hu, hd, if_true]
          refine List.Forall₂.cons (fun hf => ?_) hrec
          simp [pyTruthy, h, hu] at hf
        · simp only [saveImagesGo, h, if_neg hu, hd, if_false]
          refine List.Forall₂.cons (fun hf => ?_) hrec
          rfl


/-! ## Settled claims -/

/-- C1: with `forceFetch = false` and a cache file for today's category that
exists, parses and is non-empty, `process_news` never invokes the Content
Generator, does not rewrite the cache file, and returns exactly the
cache-loaded records, with local-image backfill and (when requested) image
materialization applied to them. -/
theorem pipeline_cache_hit_skips_generator (env : PipelineEnv)
    (category : String) (count : Nat)
    (save_json download_images upload_to_strapi : Bool) (image_folder : String)
    (ds : List ItemDict) (hc : env.cache = some (.ok ds)) (hne : ds ≠ []) :
    (process_news env category count false save_json download_images
      upload_to_strapi image_folder).genInvoked = none ∧
    (process_news env category count false save_json download_images
      upload_to_strapi image_folder).savedCache = none ∧
    (process_news env category count false save_json download_images
      upload_to_strapi image_folder).items =
      (if download_images then
          (save_images_locally env image_folder
            (find_local_images env (ds.map loadItem))).1
        else find_local_images env (ds.map loadItem)) := by
  cases download_images <;>
    simp [process_news, hc, load_news_from_json,
      find_local_images, List.isEmpty_iff, hne]

/-- Witness for C1: a one-record cache, evaluated concretely. -/
theorem pipeline_cache_hit_skips_generator_witness :
    c1Env.cache = some (.ok [c1CacheDict]) ∧
    ([c1CacheDict] : List ItemDict) ≠ [] ∧
    ((process_news c1Env "technology" 5 false true false false
        "news_images").genInvoked = none ∧
      (process_news c1Env "technology" 5 false true false false
        "news_images").savedCache = none ∧
      (process_news c1Env "technology" 5 false true false false
        "news_images").items =
        (if false then
            (save_images_locally c1Env "news_images"
              (find_local_images c1Env ([c1CacheDict].map loadItem))).1
          else find_local_images c1Env ([c1CacheDict].map loadItem))) :=
  ⟨rfl, by decide,
    pipeline_cache_hit_skips_generator c1Env "technology" 5 true false false
      "news_images" [c1CacheDict] rfl (by decide)⟩

/-- C2: with `forceFetch = true`, `process_news` always invokes the Content
Generator with the requested category and count — the cache (quantified over
every environment, hence regardless of cache presence) is never consulted —
and when `save_json` is set the cache file is overwritten with the freshly
generated records. -/
theorem pipeline_force_fetch_generates_and_overwrites (env : PipelineEnv)
    (category : String) (count : Nat)
    (save_json download_images upload_to_strapi : Bool)
    (image_folder : String) :
    (process_news env category count true save_json download_images
      upload_to_strapi image_folder).genInvoked = some (category, count) ∧
    (process_news env category count true save_json download_images
      upload_to_strapi image_folder).savedCache =
      (if save_json then
        some (save_news_to_json (generate_news_items env category)) else none) ∧
    (process_news env category count true save_json download_images
      upload_to_strapi image_folder).items =
      (if download_images then
        (save_images_locally env image_folder
          (generate_news_items env category)).1
       else generate_news_items env category) := by
  cases download_images <;> cases save_json <;>
    simp [process_news, generate_news_items, save_news_to_json]

/-- C3 counterexample: the claim says the payload carries one rich-text block
of the paragraph shape wrapping the summary.  The code computes those
paragraph blocks (`format_content_as_blocks`) but never uses them: the
submitted payload carries a `shared.rich-text` component with an HTML body
instead, so the submitted blocks differ from the paragraph-shaped ones. -/
theorem publisher_payload_blocks_counterexample :
    format_content_as_blocks "S" = [Blk.paragraph "S"] ∧
    (articlePayload "2026-02-03" c3Item none).blocks =
      [Blk.sharedRichText "<p>S</p>"] ∧
    (articlePayload "2026-02-03" c3Item none).blocks ≠
      format_content_as_blocks c3Item.summary := by
  refine ⟨by decide, rfl, by decide⟩

/-- C3 (amended): the record-create payload submitted for each record has the
record's title; the description `"News from {source}"` suffixed with
`" - {category}"` exactly when the category is truthy; a published date
falling back to the current date when absent or empty; the record's slug;
exactly one block, a `shared.rich-text` component wrapping the summary in a
paragraph tag (not the `format_content_as_blocks` paragraph shape); and a
cover exactly when a truthy (nonzero) asset id was obtained. -/
theorem publisher_payload_shape (env : UploadEnv) (items : List NewsItem) :
    (uploadGo env 0 items).2 = items.mapIdx (fun i it =>
      ({ title := it.title
         description := "News from " ++ it.source ++
           (if pyTruthy it.category then " - " ++ it.category.getD "" else "")
         publishedAt :=
           if pyTruthy it.published_date then it.published_date.getD ""
           else env.today
         slug := it.slug
         blocks := [Blk.sharedRichText ("<p>" ++ it.summary ++ "</p>")]
         cover := if env.imageId i = some 0 then none
                  else env.imageId i } : ArticleData)) := by
  rw [uploadGo_snd]
  congr 1
  funext j it
  rw [Nat.zero_add, articlePayload_fields]

/-- C4: the upload loop attempts every record (one payload submitted per
input record, regardless of earlier failures) and returns exactly the ids of
the successfully created records, in order, with failures omitted — the
result is a `filterMap` over the per-record outcomes, so one record's failure
never suppresses a later record's id. -/
theorem publisher_per_record_independence (env : UploadEnv)
    (items : List NewsItem) :
    (uploadGo env 0 items).1 =
      (List.range items.length).filterMap
        (fun j => extractId (env.createResp j)) ∧
    (uploadGo env 0 items).2.length = items.length := by
  constructor
  · have h := uploadGo_fst env items 0
    simpa using h
  · rw [uploadGo_snd]
    simp

/-- C5 counterexample: `slugify` keeps underscores (Python's `\w` matches
them), so the output of `slugify "a_b"` contains a character outside
`[a-z0-9-]`. -/
theorem slug_charset_counterexample :
    slugify "a_b" = "a_b" ∧
    ¬((slugify "a_b").data.all (fun c =>
        (97 ≤ c.toNat && c.toNat ≤ 122) || (48 ≤ c.toNat && c.toNat ≤ 57) ||
        c.toNat = 45) = true) := by
  refine ⟨by decide, by decide⟩

/-- C5 (amended): every `slugify` output is lowercase (no uppercase ASCII
letters), contains no whitespace, contains no character outside
`[a-z0-9_-]` (the underscore, kept by `\w`, is the one character beyond the
claimed set), has no leading or trailing hyphen, and has no two consecutive
hyphens. -/
theorem slug_output_charset (s : String) :
    ((slugify s).data.all isSlugChar
      && (slugify s).data.all (fun c => !isPyWs c)
      && (slugify s).data.all (fun c => !(65 ≤ c.toNat && c.toNat ≤ 90))
      && noEdgeHyphen (slugify s).data
      && noDoubleHyphen (slugify s).data) = true := by
  have hdata : (slugify s).data = slugifyL s.data := rfl
  rw [hdata]
  have hchar := mem_slugifyL_isSlugChar s.data
  simp only [Bool.and_eq_true]
  refine ⟨⟨⟨⟨?_, ?_⟩, ?_⟩, ?_⟩, ?_⟩
  · exact List.all_eq_true.mpr hchar
  · exact List.all_eq_true.mpr (fun c hc => by
      rw [slugChar_not_ws c (hchar c hc)]; rfl)
  · exact List.all_eq_true.mpr (fun c hc => by
      rw [slugChar_not_upper c (hchar c hc)]; rfl)
  · have hh : (slugifyL s.data).head? ≠ some '-' := stripHyphens_head _
    have hl : (slugifyL s.data).getLast? ≠ some '-' := stripHyphens_getLast _
    simp [noEdgeHyphen, hh, hl]
  · exact stripHyphens_noDouble _ (collapseHyphens_noDouble _)

/-- C6: `slugify` is idempotent — feeding a slug back in returns it
unchanged. -/
theorem slug_idempotent (s : String) : slugify (slugify s) = slugify s := by
  have h := slugifyL_idem s.data
  exact congrArg (fun l => (⟨l⟩ : String)) h

/-- C7: serializing Article Records to the cache format and loading the
result back preserves the eight persisted fields of every record, in order,
and never restores `local_image_path` (absent from the persisted form by
construction of `ItemDict`).  The hypothesis is the data-model invariant
every record created by the Generator or the loader satisfies: the slug is
present, and empty only when the title's slug is itself empty. -/
theorem cache_roundtrip_preserves_fields (items : List NewsItem)
    (hinv : ∀ it ∈ items,
      pyTruthy it.slug = true ∨ it.slug = some (slugify it.title)) :
    (items.map NewsItem.to_dict).map loadItem =
      items.map (fun it => { it with local_image_path := none }) := by
  induction items with
  | nil => rfl
  | cons it rest ih =>
    simp only [List.map_cons, List.cons.injEq]
    constructor
    · rcases hinv it (List.mem_cons_self _ _) with htr | hsl
      · simp [loadItem, NewsItem.to_dict, htr]
      · by_cases htr : pyTruthy it.slug = true
        · simp [loadItem, NewsItem.to_dict, htr]
        · simp only [Bool.not_eq_true] at htr
          simp [loadItem, NewsItem.to_dict, htr, ← hsl]
    · exact ih (fun x hx => hinv x (List.mem_cons_of_mem _ hx))

/-- Witness for C7: a concrete one-record round trip. -/
theorem cache_roundtrip_preserves_fields_witness :
    (∀ it ∈ [c7WitnessItem],
      pyTruthy it.slug = true ∨ it.slug = some (slugify it.title)) ∧
    ([c7WitnessItem].map NewsItem.to_dict).map loadItem =
      [c7WitnessItem].map (fun it => { it with local_image_path := none }) :=
  ⟨by decide, cache_roundtrip_preserves_fields [c7WitnessItem] (by decide)⟩

/-- C8 counterexample: `save_images_locally` only tests `image_url`; a record
that already holds a usable local image but also a remote URL still has a
download attempted for it (index 0 appears in the attempt list), contradicting
the claim that such records are not re-materialized. -/
theorem materializer_invocation_counterexample :
    pyTruthy c8Item.local_image_path = true ∧
    pyTruthy c8Item.image_url = true ∧
    (save_images_locally c8Env "news_images" [c8Item]).2 = [0] :=
  ⟨rfl, rfl, rfl⟩

/-- C8 (amended): the materialization step attempts a download exactly for
the records holding a truthy remote `imageUrl`, irrespective of any existing
local image; records without a remote image source are passed through
unchanged, silently and without error. -/
theorem materializer_invocation_set (env : PipelineEnv) (folder : String)
    (items : List NewsItem) :
    (save_images_locally env folder items).2 = urlIdxs 0 items ∧
    List.Forall₂ (fun it out => pyTruthy it.image_url = false → out = it)
      items (save_images_locally env folder items).1 :=
  ⟨saveImagesGo_snd env folder 0 items, saveImagesGo_skip env folder 0 items⟩

/-- C9 counterexample: constructing a Strapi service without credentials
succeeds (warning only, headers unset) — the error surfaces only when an
upload is attempted — and constructing an Unsplash service without a key also
succeeds; so missing credentials are not raised at construction time for
every service as claimed. -/
theorem credential_error_counterexample :
    StrapiService.init none none none none =
      .ok { api_url := none, api_token := none, hasHeaders := false } ∧
    upload_news_items { api_url := none, api_token := none, hasHeaders := false }
        nullUploadEnv [] =
      .error "Strapi URL and token are required for uploading to Strapi" ∧
    UnsplashService.init none none = .ok { hasHeaders := false } :=
  ⟨rfl, rfl, rfl⟩

/-- C9 (amended): missing credentials are the only errors raised rather than
absorbed, but where they surface differs per service: the OpenAI service
raises at construction; the Strapi service constructs successfully with
headers unset and raises only when an upload is attempted; the Unsplash
service constructs successfully and degrades image search to no result. -/
theorem credential_error_handling :
    (∀ a e : Option String, pyTruthy (pyOr a e) = false →
      OpenAIService.init a e = .error "OpenAI API key is required. Either pass it as an argument or set the OPENAI_API_KEY environment variable.") ∧
    (∀ a b c d : Option String, StrapiService.init a b c d =
      .ok { api_url := pyOr a c, api_token := pyOr b d,
            hasHeaders := pyTruthy (pyOr a c) && pyTruthy (pyOr b d) }) ∧
    (∀ (st : StrapiState) (env : UploadEnv) (items : List NewsItem),
      (pyTruthy st.api_url && st.hasHeaders) = false →
      upload_news_items st env items =
        .error "Strapi URL and token are required for uploading to Strapi") ∧
    (∀ a e : Option String, UnsplashService.init a e =
      .ok { hasHeaders := pyTruthy (pyOr a e) }) ∧
    (∀ st : UnsplashState, st.hasHeaders = false →
      ∀ (oracle : String → Option String) (q : String),
        search_image st oracle q = none) := by
  refine ⟨?_, ?_, ?_, ?_, ?_⟩
  · intro a e h
    simp [OpenAIService.init, h]
  · intro a b c d
    rfl
  · intro st env items h
    simp [upload_news_items, h]
  · intro a e
    rfl
  · intro st h oracle q
    simp [search_image, h]

/-- Witness for C9 (amended): each hypothesis discharged at concrete
credential-free inputs. -/
theorem credential_error_handling_witness :
    (pyTruthy (pyOr none none) = false ∧
      OpenAIService.init none none = .error "OpenAI API key is required. Either pass it as an argument or set the OPENAI_API_KEY environment variable.") ∧
    ((pyTruthy (StrapiState.mk none none false).api_url &&
        (StrapiState.mk none none false).hasHeaders) = false ∧
      upload_news_items ⟨none, none, false⟩ nullUploadEnv [] =
        .error "Strapi URL and token are required for uploading to Strapi") ∧
    ((UnsplashState.mk false).hasHeaders = false ∧
      search_image ⟨false⟩ (fun _ => none) "q" = none) :=
  ⟨⟨rfl, credential_error_handling.1 none none rfl⟩,
   ⟨rfl, credential_error_handling.2.2.1 ⟨none, none, false⟩ nullUploadEnv [] rfl⟩,
   ⟨rfl, credential_error_handling.2.2.2.2 ⟨false⟩ rfl (fun _ => none) "q"⟩⟩

/-- C10: a title with no ASCII-representable alphanumeric characters slugifies
to the empty string; two such distinct titles collide on the same (empty)
slug; a Generator-created record for such a title carries `slug = some ""`
(present but empty), as does a record loaded from cache without a slug. -/
theorem generator_empty_slug_collision :
    slugify "!!!" = "" ∧ slugify "???" = "" ∧ ("!!!" : String) ≠ "???" ∧
    slugify "新聞" = "" ∧
    (generate_news_items
        { nullPipelineEnv with
          genData := [{ title := "!!!", summary := "S", source := "Src" }] }
        "technology").map (fun it => it.slug) = [some ""] ∧
    (loadItem { title := "???", summary := "S", source := "Src" }).slug
       = some "" := by
  refine ⟨by decide, by decide, by decide, by decide, rfl, rfl⟩

end SheepenzNews
